import Mathlib

/-!
Shallow embedding of advchain/augmentor/adv_morph.py.

Tensors of shape [N,C,H,W] are modelled as functions
Fin N → Fin C → Fin H → Fin W → α over an ordered field α
(ℚ for the exact integer/rational parts of the pipeline, ℝ for the
parts that involve the Gaussian kernel, which uses exp and pi).
Shapes are tracked at the type level, so the rank-4 / channel-count
assertions in the source hold by construction.
-/

set_option maxHeartbeats 1000000

/-- A batched tensor of shape [N,C,H,W] with scalar type α. -/
abbrev Tensor4 (α : Type) (N C H W : ℕ) : Type :=
  Fin N → Fin C → Fin H → Fin W → α

section Core

variable {α : Type} [LinearOrderedField α] [FloorRing α]
variable {N C H W : ℕ}

/-- Value of torch.linspace(-1, 1, size) at index i
(for size = 1, torch returns the single value -1, the start point). -/
def linspaceVal (size : ℕ) (i : Fin size) : α :=
  if size ≤ 1 then -1 else -1 + 2 * (i : α) / ((size : α) - 1)

/-- get_base_grid: channel 0 holds x-coordinates (linspace over width,
repeated across rows), channel 1 holds y-coordinates (linspace over
height, repeated across columns); both normalized to [-1,1]. -/
def get_base_grid (N H W : ℕ) : Tensor4 α N 2 H W :=
  fun _ c h w => if c.val = 0 then linspaceVal W w else linspaceVal H h

/-- Clamp an integer index into [0, n-1]; the Fin n argument only
serves as evidence that n > 0. -/
def clampIdx {n : ℕ} (j : Fin n) (z : ℤ) : Fin n :=
  ⟨min (max 0 z).toNat (n - 1), by have := j.isLt; omega⟩

/-- torch clip_coordinates for padding_mode=border: clip an
unnormalized coordinate into [0, size-1]. -/
def clipCoord (x : α) (size : ℕ) : α :=
  min (max x 0) ((size : α) - 1)

/-- torch grid_sampler_unnormalize with align_corners=True:
map x from [-1,1] to pixel space [0, size-1]. -/
def unnormalizeAC (x : α) (size : ℕ) : α :=
  (x + 1) / 2 * ((size : α) - 1)

/-- Bilinear interpolation of a 2-D field at pixel coordinates
(iy, ix); out-of-range corner indices are clamped to the border
(their weights are zero whenever clamping moves an index, given
coordinates within [0, size-1]).  The Fin arguments witness H,W > 0. -/
def bilinearAt (f : Fin H → Fin W → α) (jh : Fin H) (jw : Fin W)
    (iy ix : α) : α :=
  let y0 : ℤ := ⌊iy⌋
  let x0 : ℤ := ⌊ix⌋
  let ty : α := iy - (y0 : α)
  let tx : α := ix - (x0 : α)
  let v : ℤ → ℤ → α := fun yy xx => f (clampIdx jh yy) (clampIdx jw xx)
  (1 - ty) * ((1 - tx) * v y0 x0 + tx * v y0 (x0 + 1)) +
    ty * ((1 - tx) * v (y0 + 1) x0 + tx * v (y0 + 1) (x0 + 1))

/-- applyComposition2D: F.grid_sample(flow1, flow2.permute(0,2,3,1),
padding_mode='border', align_corners=True).  flow2's channel 0 gives
the x sampling coordinate and channel 1 the y coordinate. -/
def applyComposition2D (flow1 flow2 : Tensor4 α N 2 H W) : Tensor4 α N 2 H W :=
  fun n c h w =>
    let x := flow2 n 0 h w
    let y := flow2 n 1 h w
    let ix := clipCoord (unnormalizeAC x W) W
    let iy := clipCoord (unnormalizeAC y H) H
    bilinearAt (flow1 n c) h w iy ix

/-- integrate_by_add: basegrid_wh += dxy (an in-place torch add; the
caller's tensor is mutated and aliases the returned value). -/
def integrate_by_add (basegrid_wh dxy : Tensor4 α N 2 H W) : Tensor4 α N 2 H W :=
  fun n c h w => basegrid_wh n c h w + dxy n c h w

/-- Scaling-and-squaring loop: phi := compose(phi, phi), k times. -/
def ssIter (phi : Tensor4 α N 2 H W) : ℕ → Tensor4 α N 2 H W
  | 0 => phi
  | k + 1 => (fun p => applyComposition2D p p) (ssIter phi k)

/-- Euler loop: phi := compose(interval_phi, phi), k times. -/
def eulerIter (interval_phi phi : Tensor4 α N 2 H W) : ℕ → Tensor4 α N 2 H W
  | 0 => phi
  | k + 1 => applyComposition2D interval_phi (eulerIter interval_phi phi k)

/-- vectorFieldExponentiation2D.  The local name grid_wh is mutated in
place by integrate_by_add (basegrid_wh += dxy), so after the seeding
step grid_wh equals baseGrid + duv/2^nb_steps and the final
subtraction phi - grid_wh subtracts that updated grid, not the base
grid. -/
def vectorFieldExponentiation2D (duv : Tensor4 α N 2 H W) (nb_steps : ℕ)
    (mode : String) : Tensor4 α N 2 H W :=
  let grid_wh : Tensor4 α N 2 H W := get_base_grid N H W
  let duv_interval : Tensor4 α N 2 H W :=
    fun n c h w => duv n c h w / 2 ^ nb_steps
  -- after this call the Python grid_wh aliases the sum
  let grid_wh := integrate_by_add grid_wh duv_interval
  let phi := grid_wh
  let phi :=
    if mode = "ss" then ssIter phi nb_steps else eulerIter phi phi nb_steps
  fun n c h w => phi n c h w - grid_wh n c h w

/-- Modelled from the spec: the return step of the integrator as the
spec words it, "Return phi - baseGrid (pure displacement with identity
origin removed)" -- i.e. the subtraction uses the untouched base grid. -/
def vectorFieldExponentiation2D_specRef (duv : Tensor4 α N 2 H W)
    (nb_steps : ℕ) (mode : String) : Tensor4 α N 2 H W :=
  let base : Tensor4 α N 2 H W := get_base_grid N H W
  let phi : Tensor4 α N 2 H W :=
    fun n c h w => base n c h w + duv n c h w / 2 ^ nb_steps
  let phi :=
    if mode = "ss" then ssIter phi nb_steps else eulerIter phi phi nb_steps
  fun n c h w => phi n c h w - base n c h w

/-- The x-direction difference map of calculate_image_diff: forward
difference in the first column, backward difference in the last,
central difference elsewhere.  Index arithmetic is written with
clampIdx so the function is total; the branches agree with the Python
slicing for W ≥ 2, the only case reachable through
calculate_image_diff.  For W = 2 the first two branches cover both
columns and the interior slice is empty, exactly as in the source. -/
def dxMap (f : Tensor4 α N C H W) : Tensor4 α N C H W :=
  fun n c h w =>
    if w.val = 0 then f n c h (clampIdx w 1) - f n c h (clampIdx w 0)
    else if w.val = W - 1 then
      f n c h (clampIdx w (W - 1)) - f n c h (clampIdx w (W - 2))
    else (1 / 2) * (f n c h (clampIdx w (w.val + 1)) -
      f n c h (clampIdx w (w.val - 1)))

/-- The y-direction difference map of calculate_image_diff, symmetric
to dxMap along the height axis. -/
def dyMap (f : Tensor4 α N C H W) : Tensor4 α N C H W :=
  fun n c h w =>
    if h.val = 0 then f n c (clampIdx h 1) w - f n c (clampIdx h 0) w
    else if h.val = H - 1 then
      f n c (clampIdx h (H - 1)) w - f n c (clampIdx h (H - 2)) w
    else (1 / 2) * (f n c (clampIdx h (h.val + 1)) w -
      f n c (clampIdx h (h.val - 1)) w)

/-- calculate_image_diff: returns (dx, dy).  The Python body indexes
columns 1 and -2 and rows 1 and -2, so it raises an IndexError when
H < 2 or W < 2; that failure is modelled as none. -/
def calculate_image_diff (f : Tensor4 α N C H W) :
    Option (Tensor4 α N C H W × Tensor4 α N C H W) :=
  if 2 ≤ H ∧ 2 ≤ W then some (dxMap f, dyMap f) else none

/-- Channel slice data[:, [i], :, :] keeping the channel dimension. -/
def chanSlice (data : Tensor4 α N 2 H W) (i : Fin 2) : Tensor4 α N 1 H W :=
  fun n _ h w => data n i h w

/-- calculate_jacobian_determinant: rank-4 and 2-channel preconditions
hold by type; the type string must be 'displacement' (the assert); then
dxx,dxy = diff(dx), dyx,dyy = diff(dy) and the result is
(1+dxx)(1+dyy) - dxy*dyx per pixel.  none models the assertion error /
IndexError paths. -/
def calculate_jacobian_determinant (data : Tensor4 α N 2 H W)
    (ty : String) : Option (Tensor4 α N 1 H W) :=
  if ty = "displacement" then
    match calculate_image_diff (chanSlice data 0),
        calculate_image_diff (chanSlice data 1) with
    | some (dxx, dxy), some (dyx, dyy) =>
      some (fun n c h w =>
        (1 + dxx n c h w) * (1 + dyy n c h w) - dxy n c h w * dyx n c h w)
    | _, _ => none
  else none

end Core

/-! Gaussian smoothing.  The kernel uses exp and pi, so this part of
the model lives over ℝ; sizes and sigma stay rational/integer. -/

/-- Python int(): truncation toward zero of a rational. -/
def pyInt (q : ℚ) : ℤ := if 0 ≤ q then ⌊q⌋ else -⌊-q⌋

/-- Effective kernel size of get_gaussian_kernel: the requested size,
enlarged to 2*int(3.5*sigma)+1 when smaller than that. -/
def effectiveKernelSize (ks : ℕ) (σ : ℚ) : ℕ :=
  if (ks : ℤ) < 2 * pyInt ((3.5 : ℚ) * σ) + 1 then
    (2 * pyInt ((3.5 : ℚ) * σ) + 1).toNat
  else ks

/-- Unnormalized Gaussian kernel entry at row i, column j of a K×K
grid: x_grid[i][j] = j, y_grid[i][j] = i, mean (K-1)/2, variance σ². -/
noncomputable def gaussianEntry (K : ℕ) (σ : ℚ) (i j : Fin K) : ℝ :=
  (1 / (2 * Real.pi * (σ : ℝ) ^ 2)) *
    Real.exp (-((((j : ℕ) : ℝ) - ((K : ℝ) - 1) / 2) ^ 2 +
        (((i : ℕ) : ℝ) - ((K : ℝ) - 1) / 2) ^ 2) / (2 * (σ : ℝ) ^ 2))

/-- get_gaussian_kernel: the (size-adjusted) 2-D Gaussian kernel,
normalized so its entries sum to 1.  The depthwise convolution
broadcasts this single kernel to every channel. -/
noncomputable def get_gaussian_kernel (ks : ℕ) (σ : ℚ) :
    Fin (effectiveKernelSize ks σ) → Fin (effectiveKernelSize ks σ) → ℝ :=
  fun i j =>
    gaussianEntry (effectiveKernelSize ks σ) σ i j /
      ∑ a, ∑ b, gaussianEntry (effectiveKernelSize ks σ) σ a b

section RealPipeline

variable {N C H W Hv Wv : ℕ}

/-- Zero-padded access to a 2-D field at integer coordinates, as used
by a stride-1 convolution with zero padding. -/
def zget (f : Fin H → Fin W → ℝ) (y x : ℤ) : ℝ :=
  if hy : 0 ≤ y ∧ y < (H : ℤ) then
    if hx : 0 ≤ x ∧ x < (W : ℤ) then
      f ⟨y.toNat, by omega⟩ ⟨x.toNat, by omega⟩
    else 0
  else 0

/-- Depthwise (groups = channels) stride-1 convolution with a K×K
kernel and zero padding K/2, the same-size case produced by the odd
kernels of get_gaussian_kernel; bias-free, as in the source. -/
noncomputable def depthwiseConv (K : ℕ) (kernel : Fin K → Fin K → ℝ)
    (inp : Tensor4 ℝ N C H W) : Tensor4 ℝ N C H W :=
  fun n c h w =>
    ∑ i : Fin K, ∑ j : Fin K,
      kernel i j *
        zget (inp n c) ((h : ℤ) + (i : ℤ) - (K / 2 : ℕ))
          ((w : ℤ) + (j : ℤ) - (K / 2 : ℕ))

/-- gaussian_smooth: apply the Gaussian depthwise convolution iter
times. -/
noncomputable def gaussian_smooth (inp : Tensor4 ℝ N C H W) (iter : ℕ)
    (kernel_size : ℕ) (σ : ℚ) : Tensor4 ℝ N C H W :=
  (depthwiseConv (effectiveKernelSize kernel_size σ)
      (get_gaussian_kernel kernel_size σ))^[iter] inp

/-- F.interpolate(mode='bilinear', align_corners=False): source index
is max(0, (dst+0.5)*(in/out) - 0.5) followed by bilinear interpolation
with edge-clamped corner indices.  Degenerate empty inputs (which
torch rejects) yield 0. -/
noncomputable def interpolateBilinear (inp : Tensor4 ℝ N C Hv Wv)
    (H W : ℕ) : Tensor4 ℝ N C H W :=
  fun n c h w =>
    if hvw : 0 < Hv ∧ 0 < Wv then
      let sy : ℝ := max 0 (((h : ℕ) + 1 / 2 : ℝ) * ((Hv : ℝ) / (H : ℝ)) - 1 / 2)
      let sx : ℝ := max 0 (((w : ℕ) + 1 / 2 : ℝ) * ((Wv : ℝ) / (W : ℝ)) - 1 / 2)
      bilinearAt (inp n c) ⟨0, hvw.1⟩ ⟨0, hvw.2⟩ sy sx
    else 0

/-- Elementwise torch.clamp(x, -1, 1). -/
def clamp1 (x : ℝ) : ℝ := max (-1) (min x 1)

/-- DemonsCompose before its final clamp: smooth the velocity,
resample it to the base-grid resolution, exponentiate, compose with
the running deformation, and optionally re-smooth the offset.  The
resize-on-mismatch branch of the source is skipped because the
exponentiation preserves the (already resampled) spatial size. -/
noncomputable def DemonsComposeRaw (num_steps : ℕ)
    (integration_type : String) (smooth_iter gaussian_ks : ℕ) (σ : ℚ)
    (duv : Tensor4 ℝ N 2 Hv Wv) (init_deformation_dxy : Tensor4 ℝ N 2 H W)
    (base_grid_wh : Tensor4 ℝ N 2 H W) (smooth : Bool) :
    Tensor4 ℝ N 2 H W :=
  let duv1 := gaussian_smooth duv smooth_iter gaussian_ks σ
  let duv2 := interpolateBilinear duv1 H W
  let integrated_offsets := vectorFieldExponentiation2D duv2 num_steps
    integration_type
  let composed := applyComposition2D init_deformation_dxy
    (fun n c h w => integrated_offsets n c h w + base_grid_wh n c h w)
  if smooth then
    let smoothed_offset := gaussian_smooth
      (fun n c h w => composed n c h w - base_grid_wh n c h w) 1
      gaussian_ks σ
    fun n c h w => smoothed_offset n c h w + base_grid_wh n c h w
  else composed

/-- DemonsCompose: the composed deformation grid, clamped elementwise
to [-1, 1] as the final step. -/
noncomputable def DemonsCompose (num_steps : ℕ) (integration_type : String)
    (smooth_iter gaussian_ks : ℕ) (σ : ℚ) (duv : Tensor4 ℝ N 2 Hv Wv)
    (init_deformation_dxy : Tensor4 ℝ N 2 H W)
    (base_grid_wh : Tensor4 ℝ N 2 H W) (smooth : Bool) :
    Tensor4 ℝ N 2 H W :=
  fun n c h w =>
    clamp1 (DemonsComposeRaw num_steps integration_type smooth_iter
      gaussian_ks σ duv init_deformation_dxy base_grid_wh smooth n c h w)

end RealPipeline

/-! The AdvMorph transform.  Shapes are type-level: N,C,H,W are the
image batch shape (data_size), Hv,Wv the control-field resolution
(vector_size).  Attributes that Python creates only after init_config /
init_parameters are modelled as fields quantified over freely. -/

/-- Configuration dictionary.  The required keys are fields; xi_entry
models an optional 'xi' key that callers may supply (the demo script
does) and that init_config never reads. -/
structure ConfigDict where
  epsilon : ℝ
  data_size : List ℕ
  vector_size : List ℕ
  interpolator_mode : String
  xi_entry : Option ℝ

/-- Instance state of AdvMorph. -/
structure AdvMorph (N C H W Hv Wv : ℕ) where
  config_dict : ConfigDict
  use_gpu : Bool
  debug : Bool
  align_corners : Bool
  sigma : ℚ
  gaussian_ks : ℕ
  smooth_iter : ℕ
  num_steps : ℕ
  interpolator_mode : String
  integration_type : String
  param : Option (Tensor4 ℝ N 2 Hv Wv)
  power_iteration : Bool
  is_training : Bool
  epsilon : ℝ
  xi : ℝ
  data_size : List ℕ
  vector_size : List ℕ
  base_grid_wh : Option (Tensor4 ℝ N 2 H W)
  step_size : Option ℝ
  diff : Option (Tensor4 ℝ N C H W)
  displacement : Option (Fin N → Fin H → Fin W → Fin 2 → ℝ)

/-- External collaborators from the (out-of-repository) transform base
plus the random draw consumed by init_velocity. -/
structure Externals (N Hv Wv : ℕ) where
  rand_velocity : Tensor4 ℝ N 2 Hv Wv
  rescale_parameters : Tensor4 ℝ N 2 Hv Wv → Tensor4 ℝ N 2 Hv Wv

namespace AdvMorph

variable {N C H W Hv Wv : ℕ}

/-- init_config: reads epsilon, data_size, vector_size and
interpolator_mode from the dictionary and sets xi to the constant 0.5;
no other key of the dictionary is consulted. -/
noncomputable def init_config (s : AdvMorph N C H W Hv Wv) (c : ConfigDict) :
    AdvMorph N C H W Hv Wv :=
  { s with
    epsilon := c.epsilon
    xi := 1 / 2
    data_size := c.data_size
    vector_size := c.vector_size
    interpolator_mode := c.interpolator_mode }

/-- init_velocity: a uniform draw rescaled by the external contract,
or the zero field when use_zero is set. -/
noncomputable def init_velocity (ext : Externals N Hv Wv) (use_zero : Bool) :
    Tensor4 ℝ N 2 Hv Wv :=
  if use_zero then fun _ _ _ _ => 0
  else ext.rescale_parameters ext.rand_velocity

/-- init_parameters: applies the stored configuration, builds the base
grid from data_size and stores a fresh random velocity as the
parameter. -/
noncomputable def init_parameters (s : AdvMorph N C H W Hv Wv) (ext : Externals N Hv Wv) :
    AdvMorph N C H W Hv Wv :=
  let s := s.init_config s.config_dict
  { s with
    base_grid_wh := some (get_base_grid N H W)
    param := some (init_velocity ext false) }

/-- get_deformation_displacement_field: deformation grid via
DemonsCompose (smooth=True) seeded at the base grid, and the
displacement = permuted grid minus permuted base grid.  none models
the AttributeError when the base grid was never initialized. -/
noncomputable def get_deformation_displacement_field
    (s : AdvMorph N C H W Hv Wv) (duv : Tensor4 ℝ N 2 Hv Wv) :
    Option (Tensor4 ℝ N 2 H W × (Fin N → Fin H → Fin W → Fin 2 → ℝ)) :=
  match s.base_grid_wh with
  | none => none
  | some bg =>
    let dxy := DemonsCompose s.num_steps s.integration_type s.smooth_iter
      s.gaussian_ks s.sigma duv bg bg true
    some (dxy, fun n h w c2 => dxy n c2 h w - bg n c2 h w)

end AdvMorph

/-- torch grid_sampler_unnormalize for either alignment convention. -/
noncomputable def unnormalize (ac : Bool) (x : ℝ) (size : ℕ) : ℝ :=
  if ac then (x + 1) / 2 * ((size : ℝ) - 1) else ((x + 1) * (size : ℝ) - 1) / 2

/-- Bilinear interpolation with zero padding (grid_sample default
padding_mode='zeros'): out-of-range corners contribute value 0. -/
noncomputable def bilinearZeroAt {H W : ℕ} (f : Fin H → Fin W → ℝ) (iy ix : ℝ) : ℝ :=
  let y0 : ℤ := ⌊iy⌋
  let x0 : ℤ := ⌊ix⌋
  let ty : ℝ := iy - (y0 : ℝ)
  let tx : ℝ := ix - (x0 : ℝ)
  (1 - ty) * ((1 - tx) * zget f y0 x0 + tx * zget f y0 (x0 + 1)) +
    ty * ((1 - tx) * zget f (y0 + 1) x0 + tx * zget f (y0 + 1) (x0 + 1))

/-- F.grid_sample with padding_mode='zeros' and a mode string; an
unrecognized mode raises, modelled as an error value.  The nearest
mode rounds the unnormalized coordinate to the closest pixel (written
here as floor(x + 1/2)). -/
noncomputable def gridSampleZeros {N C H W : ℕ} (d : Tensor4 ℝ N C H W)
    (grid : Fin N → Fin H → Fin W → Fin 2 → ℝ) (mode : String)
    (ac : Bool) : Except String (Tensor4 ℝ N C H W) :=
  if mode = "bilinear" then
    .ok (fun n c h w =>
      bilinearZeroAt (d n c) (unnormalize ac (grid n h w 1) H)
        (unnormalize ac (grid n h w 0) W))
  else if mode = "nearest" then
    .ok (fun n c h w =>
      zget (d n c) ⌊unnormalize ac (grid n h w 1) H + 1 / 2⌋
        ⌊unnormalize ac (grid n h w 0) W + 1 / 2⌋)
  else .error "grid_sample: mode must be bilinear or nearest"

namespace AdvMorph

variable {N C H W Hv Wv : ℕ}

/-- transform: apply a deformation grid to an image batch with
F.grid_sample.  The Python signature carries padding_mode='border'
but does not forward it to grid_sample, which therefore uses its
default zero padding. -/
noncomputable def transform (s : AdvMorph N C H W Hv Wv) (data : Tensor4 ℝ N C H W)
    (deformation_dxy : Tensor4 ℝ N 2 H W) (mode : String) :
    Except String (Tensor4 ℝ N C H W) :=
  gridSampleZeros data (fun n h w c2 => deformation_dxy n c2 h w) mode
    s.align_corners

/-- forward: lazily initializes when the parameter is absent, derives
the deformation grid (velocity scaled by xi in power-iteration
training), warps the images, and records the diagnostics diff and
displacement.  The parameter-none inner branch is unreachable: lazy
initialization has just set it. -/
noncomputable def forward (ext : Externals N Hv Wv)
    (s : AdvMorph N C H W Hv Wv) (data : Tensor4 ℝ N C H W)
    (interpolation_mode : Option String) :
    Except String (AdvMorph N C H W Hv Wv × Tensor4 ℝ N C H W) :=
  let s := if s.param.isNone then s.init_parameters ext else s
  let mode := interpolation_mode.getD s.interpolator_mode
  match s.param with
  | none => .error "parameter not initialized"
  | some p =>
    let duv : Tensor4 ℝ N 2 Hv Wv :=
      if s.power_iteration && s.is_training then
        fun n c h w => s.xi * p n c h w
      else p
    match s.get_deformation_displacement_field duv with
    | none => .error "base grid not initialized"
    | some (dxy, disp) =>
      match s.transform data dxy mode with
      | .error e => .error e
      | .ok out =>
        .ok ({ s with
            diff := some (fun n c h w => out n c h w - data n c h w)
            displacement := some disp }, out)

/-- backward: same pipeline on the negated (optionally xi-scaled)
velocity.  There is no lazy initialization: an absent parameter makes
the expression -self.param fail (TypeError), modelled as an error.
Note the warp uses self.interpolator_mode, not the local mode. -/
noncomputable def backward (s : AdvMorph N C H W Hv Wv)
    (data : Tensor4 ℝ N C H W) (interpolation_mode : Option String) :
    Except String (Tensor4 ℝ N C H W) :=
  let _mode := interpolation_mode.getD s.interpolator_mode
  match s.param with
  | none => .error "parameter not initialized"
  | some p =>
    let duv : Tensor4 ℝ N 2 Hv Wv :=
      if s.power_iteration && s.is_training then
        fun n c h w => -(s.xi * p n c h w)
      else fun n c h w => -p n c h w
    match s.get_deformation_displacement_field duv with
    | none => .error "base grid not initialized"
    | some (dxy, _) => s.transform data dxy s.interpolator_mode

end AdvMorph

/-! optimize_parameters.  The autodiff graph is modelled by a Boolean
membership flag on values; unit_normalize is the external base-class
contract and stays opaque (universally quantified).  The velocity
type β is likewise abstract. -/

/-- A tensor value with its autodiff-graph membership flag. -/
structure Tracked (β : Type) where
  data : β
  tracked : Bool

/-- detach(): same value, removed from the differentiation graph. -/
def Tracked.detach {β : Type} (t : Tracked β) : Tracked β :=
  { data := t.data, tracked := false }

/-- optimize_parameters.  The opening statement
`if step_size is None: self.step_size = step_size` overwrites the
step-size attribute with None exactly when the argument is None.  In
power-iteration mode the parameter becomes the detached
unit-normalized gradient; otherwise it becomes
param + step_size * unit_normalize(grad).detach(), which raises a
TypeError when step_size is None (modelled as an error). -/
def optimize_parameters {β : Type} [Add β] [SMul ℝ β]
    (power_iteration : Bool) (unit_normalize : Tracked β → Tracked β)
    (param grad : Tracked β) (step_size self_step_size : Option ℝ) :
    Except String (Tracked β × Option ℝ) :=
  let new_step : Option ℝ :=
    if step_size.isNone then none else self_step_size
  if power_iteration then
    let duv := unit_normalize grad
    let p := duv.detach
    .ok (p.detach, new_step)
  else
    match step_size with
    | none => .error "unsupported operand type: NoneType * Tensor"
    | some ss =>
      let duv := unit_normalize grad
      let p : Tracked β :=
        { data := param.data + ss • duv.detach.data, tracked := param.tracked }
      .ok (p.detach, new_step)

/-! Claim theorems. -/

/-- C1 (code evaluation at the failing input): integrating the
all-ones velocity over shape [1,2,2,2] with nb_steps = 0 in
scaling-squaring mode, the code returns the all-zero field, while the
spec's "phi - baseGrid" return step would give back the velocity
itself: integrate_by_add updates the base grid in place, so the final
subtraction removes baseGrid + duv/2^nb_steps instead of baseGrid. -/
theorem C1_inplace_alias_shifts_result :
    vectorFieldExponentiation2D (α := ℚ) (N := 1) (H := 2) (W := 2)
      (fun _ _ _ _ => 1) 0 "ss" = (fun _ _ _ _ => 0) ∧
    vectorFieldExponentiation2D_specRef (α := ℚ) (N := 1) (H := 2) (W := 2)
      (fun _ _ _ _ => 1) 0 "ss" = (fun _ _ _ _ => 1) := by
  constructor
  · funext n c h w
    simp [vectorFieldExponentiation2D, integrate_by_add, ssIter]
  · funext n c h w
    simp [vectorFieldExponentiation2D_specRef, ssIter]

/-- C2: every element of the deformation grid returned by
DemonsCompose lies in [-1, 1], for every velocity field, initial
deformation, base grid, smoothing flag and configuration: the final
elementwise clamp bounds the result unconditionally. -/
theorem C2_DemonsCompose_output_clamped {N H W Hv Wv : ℕ}
    (num_steps : ℕ) (integration_type : String)
    (smooth_iter gaussian_ks : ℕ) (σ : ℚ) (duv : Tensor4 ℝ N 2 Hv Wv)
    (init_deformation_dxy base_grid_wh : Tensor4 ℝ N 2 H W)
    (smooth : Bool) (n : Fin N) (c : Fin 2) (h : Fin H) (w : Fin W) :
    -1 ≤ DemonsCompose num_steps integration_type smooth_iter gaussian_ks
        σ duv init_deformation_dxy base_grid_wh smooth n c h w ∧
    DemonsCompose num_steps integration_type smooth_iter gaussian_ks
        σ duv init_deformation_dxy base_grid_wh smooth n c h w ≤ 1 := by
  unfold DemonsCompose clamp1
  exact ⟨le_max_left _ _, max_le (by norm_num) (min_le_right _ _)⟩

/-- C3 (counterexample): an unsupported integration_type does not
fail; the integration silently runs the Euler branch.  At the concrete
string 'not-an-option' the result coincides exactly with the 'euler'
result. -/
theorem C3_counterexample :
    vectorFieldExponentiation2D (α := ℚ) (N := 1) (H := 2) (W := 2)
      (fun _ _ _ _ => 1) 8 "not-an-option" =
    vectorFieldExponentiation2D (α := ℚ) (N := 1) (H := 2) (W := 2)
      (fun _ _ _ _ => 1) 8 "euler" := rfl

/-- C3 (amended): every integration_type other than 'ss' selects
Euler integration; no unsupported-option error is ever raised by the
integration operation. -/
theorem C3_unknown_type_is_euler {α : Type} [LinearOrderedField α]
    [FloorRing α] {N H W : ℕ} (duv : Tensor4 α N 2 H W) (nb_steps : ℕ)
    (mode : String) (hmode : mode ≠ "ss") :
    vectorFieldExponentiation2D duv nb_steps mode =
      vectorFieldExponentiation2D duv nb_steps "euler" := by
  unfold vectorFieldExponentiation2D
  simp only [if_neg hmode, if_neg (show ("euler" : String) ≠ "ss" by decide)]

/-- C3 (witness): concrete instantiation of the amended claim at the
unsupported mode 'Euler' (wrong case), over shape [1,2,2,2]. -/
theorem C3_unknown_type_is_euler_witness :
    ("Euler" : String) ≠ "ss" ∧
    vectorFieldExponentiation2D (α := ℚ) (N := 1) (H := 2) (W := 2)
      (fun _ _ _ _ => 1) 8 "Euler" =
    vectorFieldExponentiation2D (α := ℚ) (N := 1) (H := 2) (W := 2)
      (fun _ _ _ _ => 1) 8 "euler" :=
  ⟨by decide, C3_unknown_type_is_euler (fun _ _ _ _ => 1) 8 "Euler" (by decide)⟩

/-- C10: init_config always sets xi to the constant 0.5; in
particular a configuration's xi entry (when present) never reaches the
instance's xi attribute. -/
theorem C10_init_config_xi_constant {N C H W Hv Wv : ℕ}
    (s : AdvMorph N C H W Hv Wv) (c : ConfigDict) :
    (s.init_config c).xi = 1 / 2 := rfl

/-- C6: in power-iteration mode optimize_parameters replaces the
parameter with the detached unit-normalized gradient: the stored value
is (unit_normalize grad).data with the graph flag cleared, and the
parameter component of the result is the same for any two step_size
arguments (direction-only update). -/
theorem C6_power_iteration_direction_only {β : Type} [Add β] [SMul ℝ β]
    (unit_normalize : Tracked β → Tracked β) (param grad : Tracked β)
    (s1 s2 self_step : Option ℝ) :
    (∃ ns, optimize_parameters true unit_normalize param grad s1 self_step =
        Except.ok (⟨(unit_normalize grad).data, false⟩, ns)) ∧
    (optimize_parameters true unit_normalize param grad s1 self_step).map
        Prod.fst =
      (optimize_parameters true unit_normalize param grad s2 self_step).map
        Prod.fst := by
  constructor
  · exact ⟨_, rfl⟩
  · rfl

section IdentityComposition

variable {α : Type} [LinearOrderedField α] [FloorRing α]
variable {N C H W : ℕ}

/-- Clamping an in-range natural index is the identity. -/
lemma clampIdx_natCast {n : ℕ} (j i : Fin n) :
    clampIdx j ((i.val : ℤ)) = i := by
  unfold clampIdx
  apply Fin.ext
  simp
  omega

/-- Unnormalizing the linspace coordinate of pixel i with
align_corners=True recovers the pixel index i. -/
lemma unnormalizeAC_linspace (s : ℕ) (i : Fin s) :
    unnormalizeAC (linspaceVal s i : α) s = (i.val : α) := by
  unfold unnormalizeAC linspaceVal
  rcases le_or_lt s 1 with hs | hs
  · have hi : i.val = 0 := by omega
    rw [if_pos hs, hi]
    simp
  · have hne : (s : α) - 1 ≠ 0 := by
      have h2 : (2 : α) ≤ (s : α) := by exact_mod_cast hs
      intro hcon
      nlinarith
    rw [if_neg (by omega)]
    field_simp
    ring

/-- Border clipping keeps an in-range pixel coordinate unchanged. -/
lemma clipCoord_natCast (s : ℕ) (i : Fin s) :
    clipCoord ((i.val : α)) s = (i.val : α) := by
  unfold clipCoord
  have h0 : (0 : α) ≤ (i.val : α) := by positivity
  have h1 : (i.val : α) ≤ (s : α) - 1 := by
    have : (i.val : α) + 1 ≤ (s : α) := by exact_mod_cast i.isLt
    linarith
  rw [max_eq_left h0, min_eq_left h1]

/-- Bilinear interpolation at exact integer pixel coordinates is exact
lookup. -/
lemma bilinearAt_natCast (f : Fin H → Fin W → α) (jh h : Fin H)
    (jw w : Fin W) :
    bilinearAt f jh jw ((h.val : α)) ((w.val : α)) = f h w := by
  unfold bilinearAt
  have hy : (⌊((h.val : α))⌋ : ℤ) = (h.val : ℤ) := by
    exact_mod_cast Int.floor_natCast h.val
  have hx : (⌊((w.val : α))⌋ : ℤ) = (w.val : ℤ) := by
    exact_mod_cast Int.floor_natCast w.val
  simp only [hy, hx]
  rw [clampIdx_natCast jh h, clampIdx_natCast jw w]
  push_cast
  ring

end IdentityComposition

/-- C4: composing any deformation grid with the identity base grid is
a no-op: grid_sample with corner-aligned bilinear interpolation and
border clamping evaluated at the base grid's coordinates reads each
grid point exactly. -/
theorem C4_compose_with_base_grid_id {α : Type} [LinearOrderedField α]
    [FloorRing α] {N H W : ℕ} (g : Tensor4 α N 2 H W) :
    applyComposition2D g (get_base_grid N H W) = g := by
  funext n c h w
  show bilinearAt (g n c) h w _ _ = g n c h w
  have e0 : get_base_grid (α := α) N H W n 0 h w = linspaceVal W w := rfl
  have e1 : get_base_grid (α := α) N H W n 1 h w = linspaceVal H h := rfl
  simp only [e0, e1, unnormalizeAC_linspace, clipCoord_natCast]
  exact bilinearAt_natCast (g n c) h h w w

/-- C5 (counterexample): for the all-zero displacement of shape
[1,2,1,1] the Jacobian-determinant computation does not return the
all-ones field; the difference operator indexes column 1 of a width-1
tensor and fails (IndexError), modelled as none. -/
theorem C5_counterexample :
    calculate_jacobian_determinant (α := ℚ) (N := 1) (H := 1) (W := 1)
      (fun _ _ _ _ => 0) "displacement" ≠ some (fun _ _ _ _ => 1) := by
  decide

/-- C5 (amended): for the all-zero displacement field of any shape
[N,2,H,W] with H ≥ 2 and W ≥ 2, calculate_jacobian_determinant
returns the field that is 1 at every pixel. -/
theorem C5_zero_displacement_unit_determinant {α : Type}
    [LinearOrderedField α] [FloorRing α] (N H W : ℕ) (hH : 2 ≤ H)
    (hW : 2 ≤ W) :
    calculate_jacobian_determinant (α := α) (N := N) (H := H) (W := W)
      (fun _ _ _ _ => 0) "displacement" = some (fun _ _ _ _ => 1) := by
  unfold calculate_jacobian_determinant calculate_image_diff
  rw [if_pos rfl, if_pos ⟨hH, hW⟩, if_pos ⟨hH, hW⟩]
  dsimp only
  congr 1
  funext n c h w
  unfold dxMap dyMap chanSlice
  split_ifs <;> norm_num

/-- C5 (witness): the amended claim instantiated at shape [1,2,2,2]
over ℚ. -/
theorem C5_zero_displacement_unit_determinant_witness :
    ((2 ≤ 2) ∧ (2 ≤ 2)) ∧
    calculate_jacobian_determinant (α := ℚ) (N := 1) (H := 2) (W := 2)
      (fun _ _ _ _ => 0) "displacement" = some (fun _ _ _ _ => 1) :=
  ⟨⟨by norm_num, by norm_num⟩,
    C5_zero_displacement_unit_determinant 1 2 2 (by norm_num) (by norm_num)⟩

/-- C7: for positive sigma, the Gaussian-kernel builder uses an
effective kernel size of max(kernelSize, 2*floor(3.5*sigma)+1) -- the
requested size is enlarged exactly to that threshold when below it --
and the resulting 2-D kernel is normalized so its entries sum to 1.
(For sigma > 0, Python's int() truncation coincides with floor.) -/
theorem C7_gaussian_kernel_size_and_normalization (ks : ℕ) (σ : ℚ)
    (hσ : 0 < σ) :
    ((effectiveKernelSize ks σ : ℤ) = max (ks : ℤ) (2 * ⌊(3.5 : ℚ) * σ⌋ + 1)) ∧
    ∑ i, ∑ j, get_gaussian_kernel ks σ i j = 1 := by
  have hnn : (0 : ℚ) ≤ (3.5 : ℚ) * σ := by positivity
  have hpy : pyInt ((3.5 : ℚ) * σ) = ⌊(3.5 : ℚ) * σ⌋ := by
    unfold pyInt
    rw [if_pos hnn]
  have hfl : (0 : ℤ) ≤ ⌊(3.5 : ℚ) * σ⌋ := Int.floor_nonneg.2 hnn
  have hK : 0 < effectiveKernelSize ks σ := by
    unfold effectiveKernelSize
    rw [hpy]
    split_ifs with h
    · omega
    · omega
  refine ⟨?_, ?_⟩
  · unfold effectiveKernelSize
    rw [hpy]
    split_ifs with h
    · omega
    · omega
  · have hσR : (0 : ℝ) < (σ : ℝ) := by exact_mod_cast hσ
    have hpos : ∀ i j : Fin (effectiveKernelSize ks σ),
        0 < gaussianEntry (effectiveKernelSize ks σ) σ i j := by
      intro i j
      unfold gaussianEntry
      have hpi := Real.pi_pos
      positivity
    have hne : (Finset.univ : Finset (Fin (effectiveKernelSize ks σ))).Nonempty :=
      ⟨⟨0, hK⟩, Finset.mem_univ _⟩
    have hsum : 0 < ∑ a, ∑ b, gaussianEntry (effectiveKernelSize ks σ) σ a b := by
      apply Finset.sum_pos (fun a _ => ?_) hne
      exact Finset.sum_pos (fun b _ => hpos a b) hne
    unfold get_gaussian_kernel
    simp only [div_eq_mul_inv, ← Finset.sum_mul]
    exact mul_inv_cancel₀ (ne_of_gt hsum)

/-- C7 (witness): the repository's own configuration, kernelSize 3 and
sigma 1, where the size is enlarged to max(3, 7) = 7. -/
theorem C7_gaussian_kernel_witness :
    (0 : ℚ) < 1 ∧
    (((effectiveKernelSize 3 1 : ℤ) = max (3 : ℤ) (2 * ⌊(3.5 : ℚ) * 1⌋ + 1)) ∧
      ∑ i, ∑ j, get_gaussian_kernel 3 1 i j = 1) :=
  ⟨by norm_num, C7_gaussian_kernel_size_and_normalization 3 1 (by norm_num)⟩

/-- C8: with the parameter already present (and the base grid set, as
init_parameters guarantees, with a recognized interpolation mode),
forward succeeds and the post state is exactly the pre state with only
diff and displacement reassigned -- in particular the parameter is
untouched and diff equals the transformed images minus the input. -/
theorem C8_forward_updates_only_diagnostics {N C H W Hv Wv : ℕ}
    (ext : Externals N Hv Wv) (s : AdvMorph N C H W Hv Wv)
    (data : Tensor4 ℝ N C H W) (p : Tensor4 ℝ N 2 Hv Wv)
    (bg : Tensor4 ℝ N 2 H W) (hp : s.param = some p)
    (hg : s.base_grid_wh = some bg)
    (hm : s.interpolator_mode = "bilinear" ∨
      s.interpolator_mode = "nearest") :
    ∃ out disp, AdvMorph.forward ext s data none = Except.ok
      ({ s with
          diff := some (fun n c h w => out n c h w - data n c h w)
          displacement := some disp }, out) := by
  rcases hm with hm | hm <;>
   · unfold AdvMorph.forward AdvMorph.get_deformation_displacement_field
       AdvMorph.transform gridSampleZeros
     simp only [hp, hg, hm, Option.isNone_some, Bool.false_eq_true, if_false,
       Option.getD_none, Option.getD]
     exact ⟨_, _, rfl⟩

/-- An initialized instance state used to exercise forward: zero
velocity parameter of shape [1,2,1,1], base grid for 2x2 images,
bilinear interpolation. -/
noncomputable def sampleInitState : AdvMorph 1 1 2 2 1 1 where
  config_dict := ⟨3 / 2, [1, 1, 2, 2], [1, 1], "bilinear", none⟩
  use_gpu := false
  debug := false
  align_corners := true
  sigma := 1
  gaussian_ks := 3
  smooth_iter := 1
  num_steps := 8
  interpolator_mode := "bilinear"
  integration_type := "ss"
  param := some (fun _ _ _ _ => 0)
  power_iteration := false
  is_training := false
  epsilon := 3 / 2
  xi := 1 / 2
  data_size := [1, 1, 2, 2]
  vector_size := [1, 1]
  base_grid_wh := some (get_base_grid 1 2 2)
  step_size := none
  diff := none
  displacement := none

/-- The same instance state before any initialization: no parameter,
no base grid. -/
noncomputable def sampleUninitState : AdvMorph 1 1 2 2 1 1 :=
  { sampleInitState with param := none, base_grid_wh := none }

/-- Trivial external collaborators for the sample states. -/
noncomputable def sampleExternals : Externals 1 1 1 where
  rand_velocity := fun _ _ _ _ => 0
  rescale_parameters := id

/-- C8 (witness): the frame property instantiated at the concrete
initialized state and a zero image batch. -/
theorem C8_forward_updates_only_diagnostics_witness :
    sampleInitState.param = some (fun _ _ _ _ => 0) ∧
    sampleInitState.base_grid_wh = some (get_base_grid 1 2 2) ∧
    (sampleInitState.interpolator_mode = "bilinear" ∨
      sampleInitState.interpolator_mode = "nearest") ∧
    ∃ out disp,
      AdvMorph.forward sampleExternals sampleInitState (fun _ _ _ _ => 0)
        none = Except.ok
        ({ sampleInitState with
            diff := some (fun n c h w =>
              out n c h w - (fun (_ : Fin 1) (_ : Fin 1) (_ : Fin 2)
                (_ : Fin 2) => (0 : ℝ)) n c h w)
            displacement := some disp }, out) :=
  ⟨rfl, rfl, Or.inl rfl,
    C8_forward_updates_only_diagnostics sampleExternals sampleInitState
      (fun _ _ _ _ => 0) (fun _ _ _ _ => 0) (get_base_grid 1 2 2) rfl rfl
      (Or.inl rfl)⟩

/-- C9: backward never lazily initializes: on an instance whose
parameter is absent, backward fails (the Python expression
-self.param raises a TypeError) instead of initializing the parameter
and warping. -/
theorem C9_backward_requires_initialization {N C H W Hv Wv : ℕ}
    (s : AdvMorph N C H W Hv Wv) (data : Tensor4 ℝ N C H W)
    (imode : Option String) (hp : s.param = none) :
    AdvMorph.backward s data imode =
      Except.error "parameter not initialized" := by
  unfold AdvMorph.backward
  rw [hp]

/-- C9 (witness): the failure instantiated at the concrete
uninitialized state and a zero image batch. -/
theorem C9_backward_requires_initialization_witness :
    sampleUninitState.param = none ∧
    AdvMorph.backward sampleUninitState (fun _ _ _ _ => 0) none =
      Except.error "parameter not initialized" :=
  ⟨rfl, C9_backward_requires_initialization sampleUninitState
    (fun _ _ _ _ => 0) none rfl⟩
